import Mathlib

/-!
Verification of the session/credential lifecycle subsystem of habit-arc
(Rust backend) against its natural-language specification.

The Rust sources are shallowly embedded as executable Lean definitions:

* `src/backend/src/auth/jwt.rs` — token issuance/verification. JWTs are
  modelled symbolically: a `Token` carries its signed payload and a
  `Signature` value standing for the HMAC-SHA256 tag over (secret, payload);
  signature checking is equality of that pair (Dolev-Yao style). The
  `jsonwebtoken` crate's `Validation::default()` semantics are embedded
  faithfully, including its default 60-second expiry leeway.
* `src/backend/src/handlers/auth.rs` — the refresh-rotation handler and the
  refresh-token ledger. The Postgres table `refresh_tokens` is modelled as a
  list of records; each SQL statement becomes the corresponding pure list
  transformation. `Uuid::new_v4()` is modelled by a freshness counter
  (`UuidGen`): every draw is a value never produced before.
* `src/backend/src/auth/middleware.rs` — the access-token middleware.
* `src/backend/src/auth/rate_limit.rs` — the fixed-window rate limiter; the
  `HashMap<String, RateLimitEntry>` is modelled as an association list with
  unique keys, `Instant` as a `Nat` number of seconds.

Timestamps from `chrono` (`Utc::now().timestamp()`, i64 seconds) are
modelled as `Int`; adding `Duration::seconds(ttl)` to an instant and taking
`.timestamp()` adds exactly `ttl` to the integer timestamp, since whole
seconds preserve the sub-second part.
-/

namespace HabitArc

/-- Model of `uuid::Uuid`: an opaque identifier. -/
abbrev Uuid := Nat

/-- Model of `Uuid::new_v4()`: a freshness counter. Every value previously
generated is `< next`, so each draw is distinct from all earlier draws. -/
structure UuidGen where
  next : Uuid
deriving DecidableEq, Repr

/-- Draw a fresh UUID and advance the generator. -/
def UuidGen.fresh (g : UuidGen) : Uuid × UuidGen :=
  (g.next, ⟨g.next + 1⟩)

/-- `TokenType` from src/backend/src/auth/jwt.rs (serde lowercase). -/
inductive TokenType where
  | access
  | refresh
deriving DecidableEq, Repr

/-- `Claims` from src/backend/src/auth/jwt.rs: the signed JWT payload. -/
structure Claims where
  sub : Uuid
  email : String
  exp : Int
  iat : Int
  token_type : TokenType
  jti : Option Uuid
  is_demo : Option Bool
deriving DecidableEq, Repr

/-- The part of `Config` (src/backend/src/config.rs) the auth core reads. -/
structure Config where
  jwt_secret : String
  jwt_access_ttl_secs : Int
  jwt_refresh_ttl_secs : Int
  demo_ttl_secs : Int
deriving DecidableEq, Repr

/-- `Config::from_env` defaults: access TTL 900s, refresh TTL 604800s,
demo TTL 7200s. -/
def defaultConfig : Config :=
  { jwt_secret := "jwt-secret"
    jwt_access_ttl_secs := 900
    jwt_refresh_ttl_secs := 604800
    demo_ttl_secs := 7200 }

/-- Symbolic HMAC-SHA256 tag: determined exactly by the signing secret and
the signed payload (ideal MAC, no forgeries and no collisions). -/
structure Signature where
  secret : String
  payload : Claims
deriving DecidableEq, Repr

/-- A compact signed token: payload plus signature over it. -/
structure Token where
  claims : Claims
  sig : Signature
deriving DecidableEq, Repr

/-- `jsonwebtoken::encode` with `Header::default()` and an HS256 key:
serializes and signs the claims. Encoding errors cannot occur in the model
(the Rust code treats them as fatal `Internal` errors). -/
def encode (secret : String) (c : Claims) : Token :=
  ⟨c, ⟨secret, c⟩⟩

/-- Default expiry leeway of `jsonwebtoken::Validation` (60 seconds of
tolerated clock skew): a token is accepted while `exp >= now - leeway`. -/
def jwtLeeway : Int := 60

/-- `jsonwebtoken::decode::<Claims>` under `Validation::default()` with
`validate_exp = true` (as set up in `verify_token`): the signature must
match the secret and payload, and the `exp` claim must not be more than
`jwtLeeway` seconds in the past. -/
def decode (secret : String) (now : Int) (t : Token) : Option Claims :=
  if t.sig = ⟨secret, t.claims⟩ ∧ now - jwtLeeway ≤ t.claims.exp then
    some t.claims
  else
    none

/-- `AppError` from src/backend/src/error.rs (the variants the auth core
produces; `Unauthorized` renders as the generic 401 "Authentication
required" response, i.e. the spec's Unauthenticated error). -/
inductive AppError where
  | Unauthorized
  | RateLimited
  | NotFound
  | Internal
deriving DecidableEq, Repr

/-- `verify_token` from src/backend/src/auth/jwt.rs: decode with default
validation, collapsing every decode failure to `Unauthorized`. `now` is the
verifier's clock at the moment of the call. -/
def verify_token (token : Token) (config : Config) (now : Int) :
    Except AppError Claims :=
  match decode config.jwt_secret now token with
  | some c => .ok c
  | none => .error .Unauthorized

/-- `TokenPair` from src/backend/src/auth/jwt.rs. -/
structure TokenPair where
  access_token : Token
  refresh_token : Token
  expires_in : Int
deriving DecidableEq, Repr

/-- `create_access_token`: claims with `exp = now + access TTL`,
`iat = now`, kind `access`, no `jti`, no demo flag. -/
def create_access_token (user_id : Uuid) (email : String) (config : Config)
    (now : Int) : Token :=
  encode config.jwt_secret
    { sub := user_id
      email := email
      exp := now + config.jwt_access_ttl_secs
      iat := now
      token_type := .access
      jti := none
      is_demo := none }

/-- `create_refresh_token`: draws a fresh `jti`, claims with
`exp = now + refresh TTL`, kind `refresh`. Returns the token and the
advanced UUID generator. -/
def create_refresh_token (user_id : Uuid) (email : String) (config : Config)
    (now : Int) (g : UuidGen) : Token × UuidGen :=
  let (jti, g') := g.fresh
  (encode config.jwt_secret
    { sub := user_id
      email := email
      exp := now + config.jwt_refresh_ttl_secs
      iat := now
      token_type := .refresh
      jti := some jti
      is_demo := none }, g')

/-- `create_token_pair`: access token then refresh token, `expires_in` is
the access TTL. -/
def create_token_pair (user_id : Uuid) (email : String) (config : Config)
    (now : Int) (g : UuidGen) : TokenPair × UuidGen :=
  let access_token := create_access_token user_id email config now
  let (refresh_token, g') := create_refresh_token user_id email config now g
  ({ access_token := access_token
     refresh_token := refresh_token
     expires_in := config.jwt_access_ttl_secs }, g')

/-- `create_demo_access_token`: caller-supplied TTL, empty email, kind
`access`, no `jti`, `is_demo = Some(true)`. -/
def create_demo_access_token (user_id : Uuid) (ttl_secs : Int)
    (config : Config) (now : Int) : Token :=
  encode config.jwt_secret
    { sub := user_id
      email := ""
      exp := now + ttl_secs
      iat := now
      token_type := .access
      jti := none
      is_demo := some true }

/-- Model of the lowercase-hex SHA-256 digest computed by `hash_token`
(src/backend/src/auth/jwt.rs). The digest is modelled as an ideal one-way
function: deterministic and injective on the token wire format, so it is
represented by the token value itself. -/
structure TokenHash where
  of : Token
deriving DecidableEq, Repr

/-- `hash_token`: deterministic digest of the raw token string. -/
def hash_token (raw_token : Token) : TokenHash :=
  ⟨raw_token⟩

/-- A row of the `refresh_tokens` table (see `store_refresh_token` and the
queries in src/backend/src/handlers/auth.rs). -/
structure RefreshRecord where
  id : Uuid
  user_id : Uuid
  token_hash : TokenHash
  expires_at : Int
  revoked : Bool
  revoked_at : Option Int
  parent_token_id : Option Uuid
deriving DecidableEq, Repr

/-- The `refresh_tokens` table: a list of rows in insertion order. -/
abbrev Db := List RefreshRecord

/-- The ledger write operations the refresh handler performs, in program
order (used to state which side effect happens before which). -/
inductive LedgerOp where
  | revoke (id : Uuid)
  | revokeAllForSubject (user_id : Uuid)
  | store (id : Uuid)
deriving DecidableEq, Repr

/-- `store_refresh_token` (src/backend/src/handlers/auth.rs): hash the raw
token, draw a fresh row id, INSERT a non-revoked row with
`expires_at = now + ttl` and the given parent link. Returns the new state,
the advanced generator and the new row id. -/
def store_refresh_token (db : Db) (g : UuidGen) (user_id : Uuid)
    (raw_refresh_token : Token) (ttl_secs : Int)
    (parent_token_id : Option Uuid) (now : Int) : Db × UuidGen × Uuid :=
  let token_hash := hash_token raw_refresh_token
  let expires_at := now + ttl_secs
  let (id, g') := g.fresh
  (db ++ [{ id := id
            user_id := user_id
            token_hash := token_hash
            expires_at := expires_at
            revoked := false
            revoked_at := none
            parent_token_id := parent_token_id }], g', id)

/-- `issue_token_pair`: mint a pair, persist the refresh token's hash with
the given parent link. Also returns the new row id (for trace bookkeeping). -/
def issue_token_pair (db : Db) (g : UuidGen) (user_id : Uuid) (email : String)
    (config : Config) (parent_token_id : Option Uuid) (now : Int) :
    Db × UuidGen × TokenPair × Uuid :=
  let (tokens, g1) := create_token_pair user_id email config now g
  let (db', g2, id) := store_refresh_token db g1 user_id tokens.refresh_token
    config.jwt_refresh_ttl_secs parent_token_id now
  (db', g2, tokens, id)

/-- `revoke_all_user_tokens`: `UPDATE refresh_tokens SET revoked = true,
revoked_at = NOW() WHERE user_id = $1 AND revoked = false`. -/
def revoke_all_user_tokens (db : Db) (user_id : Uuid) (now : Int) : Db :=
  db.map fun r =>
    if r.user_id = user_id ∧ r.revoked = false then
      { r with revoked := true, revoked_at := some now }
    else r

/-- The single-row revoke in `refresh`: `UPDATE refresh_tokens SET
revoked = true, revoked_at = NOW() WHERE id = $1`. -/
def revoke_record (db : Db) (id : Uuid) (now : Int) : Db :=
  db.map fun r =>
    if r.id = id then { r with revoked := true, revoked_at := some now }
    else r

/-- The ledger lookup in `refresh`: `SELECT id, user_id, revoked FROM
refresh_tokens WHERE token_hash = $1` with `fetch_optional` (first matching
row, if any). -/
def lookup_by_hash (db : Db) (h : TokenHash) : Option RefreshRecord :=
  db.find? fun r => decide (r.token_hash = h)

/-- `refresh` (src/backend/src/handlers/auth.rs): verify the presented
refresh token, require kind `refresh`, look its hash up in the ledger, then
either (reuse) revoke the whole family of the record's owner and fail,
(subject mismatch) fail with the ledger untouched, or (rotate) revoke the
old row and store a freshly issued pair linked to it. Returns the new table
state, the advanced generator, the trace of ledger writes in program order,
and the handler result. -/
def refresh (db : Db) (g : UuidGen) (config : Config) (refresh_token : Token)
    (now : Int) : Db × UuidGen × List LedgerOp × Except AppError TokenPair :=
  match verify_token refresh_token config now with
  | .error e => (db, g, [], .error e)
  | .ok claims =>
    if claims.token_type ≠ TokenType.refresh then
      (db, g, [], .error .Unauthorized)
    else
      match lookup_by_hash db (hash_token refresh_token) with
      | none => (db, g, [], .error .Unauthorized)
      | some stored =>
        if stored.revoked then
          (revoke_all_user_tokens db stored.user_id now, g,
            [.revokeAllForSubject stored.user_id], .error .Unauthorized)
        else if stored.user_id ≠ claims.sub then
          (db, g, [], .error .Unauthorized)
        else
          let db1 := revoke_record db stored.id now
          let (db2, g2, tokens, new_id) :=
            issue_token_pair db1 g claims.sub claims.email config
              (some stored.id) now
          (db2, g2, [.revoke stored.id, .store new_id], .ok tokens)

/-- `AuthUser` from src/backend/src/auth/middleware.rs. -/
structure AuthUser where
  id : Uuid
  email : Option String
  is_demo : Bool
deriving DecidableEq, Repr

/-- An `Authorization` header value: the scheme text in front (the Rust code
strips the literal "Bearer " in front of the token) and the token itself. -/
structure AuthHeaderVal where
  scheme : String
  token : Token
deriving DecidableEq, Repr

/-- `require_auth` (src/backend/src/auth/middleware.rs): header must be
present with the Bearer scheme, the token must verify, and its kind must be
`access`; the demo flag defaults to false. -/
def require_auth (config : Config) (now : Int)
    (auth_header : Option AuthHeaderVal) : Except AppError AuthUser :=
  match auth_header with
  | none => .error .Unauthorized
  | some h =>
    if h.scheme ≠ "Bearer " then .error .Unauthorized
    else
      match verify_token h.token config now with
      | .error e => .error e
      | .ok claims =>
        if claims.token_type ≠ TokenType.access then .error .Unauthorized
        else
          .ok { id := claims.sub
                email := if claims.email = "" then none else some claims.email
                is_demo := claims.is_demo.getD false }

/-- Rate limiter constants from src/backend/src/auth/rate_limit.rs:
`MAX_REQUESTS: u32 = 5`, `WINDOW_SECS: u64 = 60`. -/
def MAX_REQUESTS : Nat := 5

/-- Default window duration in seconds. -/
def WINDOW_SECS : Nat := 60

/-- `RateLimitEntry`: per-key request count and window start. `Instant` is
modelled as a `Nat` number of seconds (all constants in the code are whole
seconds); `duration_since` saturates at zero, as `Nat` subtraction does. -/
structure RateLimitEntry where
  count : Nat
  window_start : Nat
deriving DecidableEq, Repr

/-- The `HashMap<String, RateLimitEntry>` inside `RateLimitState`, as an
association list with at most one binding per key. -/
abbrev RLMap := List (String × RateLimitEntry)

/-- HashMap lookup. -/
def rlLookup (m : RLMap) (key : String) : Option RateLimitEntry :=
  (m.find? fun kv => decide (kv.1 = key)).map Prod.snd

/-- HashMap insert-or-replace (keeps one binding per key). -/
def rlInsert (m : RLMap) (key : String) (e : RateLimitEntry) : RLMap :=
  match m with
  | [] => [(key, e)]
  | kv :: rest =>
    if kv.1 = key then (key, e) :: rest else kv :: rlInsert rest key e

/-- Outcome of an admission check: `Ok(remaining)` or `Err(retry_after)`
(retry-after in seconds). -/
inductive CheckResult where
  | ok (remaining : Nat)
  | limited (retry_after : Nat)
deriving DecidableEq, Repr

/-- `RateLimitState::check_with_limits`: `entry(key).or_insert {count: 0,
window_start: now}`; reset the window if strictly more than `window_secs`
elapsed; reject with `window - elapsed` (saturating) when `count >=
max_requests`; otherwise increment and admit with the remaining budget. -/
def check_with_limits (m : RLMap) (key : String) (max_requests : Nat)
    (window_secs : Nat) (now : Nat) : RLMap × CheckResult :=
  let e0 := (rlLookup m key).getD { count := 0, window_start := now }
  let e1 := if now - e0.window_start > window_secs then
      { count := 0, window_start := now }
    else e0
  if e1.count ≥ max_requests then
    (rlInsert m key e1, .limited (window_secs - (now - e1.window_start)))
  else
    (rlInsert m key { e1 with count := e1.count + 1 },
      .ok (max_requests - (e1.count + 1)))

/-- `RateLimitState::check`: the default auth-endpoint policy. -/
def check (m : RLMap) (key : String) (now : Nat) : RLMap × CheckResult :=
  check_with_limits m key MAX_REQUESTS WINDOW_SECS now

/-- `RateLimitState::cleanup`: retain exactly the entries whose window start
is less than `WINDOW_SECS * 2` seconds old — the constant default window,
whatever policy the key was checked under. -/
def cleanup (m : RLMap) (now : Nat) : RLMap :=
  m.filter fun kv => decide (now - kv.2.window_start < WINDOW_SECS * 2)

/-- The rate-limit key built by `rate_limit_demo`: `format!("demo:{}", ip)`,
checked with `max_requests = 3`, `window_secs = 3600`. -/
def demoKey (ip : String) : String := "demo:" ++ ip

/-- `rate_limit_demo`'s admission check for a caller address. -/
def rate_limit_demo_check (m : RLMap) (ip : String) (now : Nat) :
    RLMap × CheckResult :=
  check_with_limits m (demoKey ip) 3 3600 now

/-- Run a sequence of default-policy checks for one key at the given
instants, collecting the results. -/
def runChecks (m : RLMap) (key : String) : List Nat → RLMap × List CheckResult
  | [] => (m, [])
  | t :: ts =>
    let (m', r) := check m key t
    let (m'', rs) := runChecks m' key ts
    (m'', r :: rs)

/-! Witness fixtures: concrete tokens and ledger rows used to instantiate
theorems with hypotheses on concrete inputs. -/

/-- A refresh token for subject 1 issued at time 0 (jti 3). -/
def tokR1 : Token := (create_refresh_token 1 "u1@x" defaultConfig 0 ⟨3⟩).1

/-- A second refresh token for subject 1 issued at time 0 (jti 4). -/
def tokR2 : Token := (create_refresh_token 1 "u1@x" defaultConfig 0 ⟨4⟩).1

/-- A ledger row fixture: id `i`, owner `u`, hash of `t`, revocation state
`rv` (revocation timestamp 50 when revoked). -/
def recOf (i u : Uuid) (t : Token) (rv : Bool) : RefreshRecord :=
  { id := i
    user_id := u
    token_hash := hash_token t
    expires_at := 604800
    revoked := rv
    revoked_at := if rv then some 50 else none
    parent_token_id := none }

/-! Helper lemmas about the token codec. -/

/-- Decoding an encoded token with the signing secret succeeds while the
expiry (plus leeway) has not passed, returning the signed claims. -/
theorem decode_encode (s : String) (c : Claims) (now : Int)
    (h : now - jwtLeeway ≤ c.exp) : decode s now (encode s c) = some c := by
  unfold decode encode
  rw [if_pos ⟨rfl, h⟩]

/-- Verification of an encoded token with the signing secret succeeds while
the expiry (plus leeway) has not passed, returning the signed claims. -/
theorem verify_token_encode (cfg : Config) (c : Claims) (now : Int)
    (h : now - jwtLeeway ≤ c.exp) :
    verify_token (encode cfg.jwt_secret c) cfg now = .ok c := by
  unfold verify_token
  rw [decode_encode cfg.jwt_secret c now h]

/-- When verification succeeds, the returned claims are the token's own
payload (decoding never substitutes a different payload). -/
theorem verify_token_ok_eq (t : Token) (cfg : Config) (now : Int) (c : Claims)
    (h : verify_token t cfg now = .ok c) : c = t.claims := by
  unfold verify_token decode at h
  by_cases hc :
      t.sig = ⟨cfg.jwt_secret, t.claims⟩ ∧ now - jwtLeeway ≤ t.claims.exp
  · rw [if_pos hc] at h
    cases h
    rfl
  · rw [if_neg hc] at h
    cases h

/-- Every verification failure is reported as `Unauthorized`. -/
theorem verify_token_error_eq (t : Token) (cfg : Config) (now : Int)
    (e : AppError) (h : verify_token t cfg now = .error e) :
    e = AppError.Unauthorized := by
  unfold verify_token at h
  cases hd : decode cfg.jwt_secret now t with
  | some c => rw [hd] at h; cases h
  | none => rw [hd] at h; cases h; rfl

/-- C3, counterexample. The claim says verification at any instant at or
after `exp` fails and that verification exactly at `exp` fails. On the code,
`verify_token` uses `jsonwebtoken::Validation::default()`, whose expiry
check tolerates 60 seconds of clock skew: a token whose `exp` is 900 still
verifies successfully at instant 900 (and up to 960). -/
theorem C3_counterexample_verify_at_exp_succeeds :
    (create_access_token 1 "a@b" defaultConfig 0).claims.exp = 900 ∧
    verify_token (create_access_token 1 "a@b" defaultConfig 0) defaultConfig
      900 = .ok (create_access_token 1 "a@b" defaultConfig 0).claims ∧
    verify_token (create_access_token 1 "a@b" defaultConfig 0) defaultConfig
      960 = .ok (create_access_token 1 "a@b" defaultConfig 0).claims := by
  refine ⟨rfl, ?_, ?_⟩ <;> rfl

/-- C3, amended. For every token, verification strictly more than 60 seconds
(the verifier's default clock-skew leeway) after the token's `exp` fails
with the Unauthenticated error and never succeeds; a refresh token expired
beyond the leeway is rejected by token verification before the ledger is
consulted: the refresh handler returns with the ledger unchanged and an
empty write trace. -/
theorem C3_verify_after_exp_plus_leeway_fails (t : Token) (cfg : Config)
    (now : Int) (h : t.claims.exp + jwtLeeway < now) :
    verify_token t cfg now = .error .Unauthorized ∧
    ∀ (db : Db) (g : UuidGen),
      refresh db g cfg t now = (db, g, [], .error .Unauthorized) := by
  have hd : decode cfg.jwt_secret now t = none := by
    unfold decode
    rw [if_neg]
    rintro ⟨-, h2⟩
    omega
  constructor
  · unfold verify_token
    rw [hd]
  · intro db g
    unfold refresh verify_token
    rw [hd]

/-- C3, witness: a token with `exp = 900` presented at instant 961. -/
theorem C3_witness :
    (create_access_token 2 "w@x" defaultConfig 0).claims.exp + jwtLeeway <
      961 ∧
    verify_token (create_access_token 2 "w@x" defaultConfig 0) defaultConfig
      961 = .error .Unauthorized ∧
    refresh [] ⟨5⟩ defaultConfig (create_access_token 2 "w@x" defaultConfig 0)
      961 = ([], ⟨5⟩, [], .error .Unauthorized) :=
  ⟨by decide,
    (C3_verify_after_exp_plus_leeway_fails _ defaultConfig 961 (by decide)).1,
    (C3_verify_after_exp_plus_leeway_fails _ defaultConfig 961
      (by decide)).2 [] ⟨5⟩⟩

/-- C9. Verifying a token produced by any of the three issuance paths
(access, refresh, ephemeral demo) before its `exp` instant returns exactly
the claims that were signed: subject, email, `exp`, `iat`, kind, `jti` and
demo flag all round-trip. -/
theorem C9_verify_issue_roundtrip (u : Uuid) (e : String) (cfg : Config)
    (now now' ttl : Int) (g : UuidGen)
    (h1 : now' < now + cfg.jwt_access_ttl_secs)
    (h2 : now' < now + cfg.jwt_refresh_ttl_secs)
    (h3 : now' < now + ttl) :
    verify_token (create_access_token u e cfg now) cfg now' =
      .ok { sub := u, email := e, exp := now + cfg.jwt_access_ttl_secs,
            iat := now, token_type := .access, jti := none,
            is_demo := none } ∧
    verify_token (create_refresh_token u e cfg now g).1 cfg now' =
      .ok { sub := u, email := e, exp := now + cfg.jwt_refresh_ttl_secs,
            iat := now, token_type := .refresh, jti := some g.next,
            is_demo := none } ∧
    verify_token (create_demo_access_token u ttl cfg now) cfg now' =
      .ok { sub := u, email := "", exp := now + ttl, iat := now,
            token_type := .access, jti := none, is_demo := some true } := by
  refine ⟨verify_token_encode cfg _ now' ?_, verify_token_encode cfg _ now' ?_,
    verify_token_encode cfg _ now' ?_⟩ <;>
  · show now' - jwtLeeway ≤ _
    unfold jwtLeeway
    dsimp
    omega

/-- C9, witness: subject 1 at issue time 0, verified at instant 100 with TTL
50 for the demo variant. -/
theorem C9_witness :
    (100 : Int) < 0 + defaultConfig.jwt_access_ttl_secs ∧
    (100 : Int) < 0 + defaultConfig.jwt_refresh_ttl_secs ∧
    (100 : Int) < 0 + 101 ∧
    verify_token (create_access_token 1 "r@x" defaultConfig 0) defaultConfig
      100 =
      .ok { sub := 1, email := "r@x",
            exp := 0 + defaultConfig.jwt_access_ttl_secs, iat := 0,
            token_type := .access, jti := none, is_demo := none } :=
  ⟨by decide, by decide, by decide,
    (C9_verify_issue_roundtrip 1 "r@x" defaultConfig 0 100 101 ⟨7⟩ (by decide)
      (by decide) (by decide)).1⟩

/-- C7. Wrong-kind tokens fail closed regardless of validity: the refresh
handler rejects every token whose `token_type` claim is not `refresh` with
the Unauthenticated error and leaves the ledger untouched, and the
access-token middleware rejects every Bearer token whose `token_type` claim
is not `access` with the Unauthenticated error — with no assumption on
signature validity or expiry, so in particular also for valid, unexpired
tokens. -/
theorem C7_wrong_kind_fails_closed (cfg : Config) (now : Int) (t t' : Token)
    (db : Db) (g : UuidGen)
    (hr : t.claims.token_type ≠ TokenType.refresh)
    (ha : t'.claims.token_type ≠ TokenType.access) :
    refresh db g cfg t now = (db, g, [], .error .Unauthorized) ∧
    require_auth cfg now (some ⟨"Bearer ", t'⟩) = .error .Unauthorized := by
  constructor
  · cases hv : verify_token t cfg now with
    | error e =>
      have he : e = AppError.Unauthorized := verify_token_error_eq t cfg now e hv
      unfold refresh
      rw [hv, he]
    | ok c =>
      have hc : c = t.claims := verify_token_ok_eq t cfg now c hv
      unfold refresh
      rw [hv]
      simp [hc, hr]
  · cases hv : verify_token t' cfg now with
    | error e =>
      have he : e = AppError.Unauthorized :=
        verify_token_error_eq t' cfg now e hv
      simp [require_auth, hv, he]
    | ok c =>
      have hc : c = t'.claims := verify_token_ok_eq t' cfg now c hv
      simp [require_auth, hv, hc, ha]

/-- C7, witness: a valid, unexpired access token presented to the refresh
handler, and a valid, unexpired refresh token presented to the middleware. -/
theorem C7_witness :
    (create_access_token 1 "a@b" defaultConfig 0).claims.token_type ≠
      TokenType.refresh ∧
    tokR1.claims.token_type ≠ TokenType.access ∧
    refresh [] ⟨9⟩ defaultConfig (create_access_token 1 "a@b" defaultConfig 0)
      10 = ([], ⟨9⟩, [], .error .Unauthorized) ∧
    require_auth defaultConfig 10 (some ⟨"Bearer ", tokR1⟩) =
      .error .Unauthorized :=
  ⟨by decide, by decide,
    (C7_wrong_kind_fails_closed defaultConfig 10 _ tokR1 [] ⟨9⟩ (by decide)
      (by decide)).1,
    (C7_wrong_kind_fails_closed defaultConfig 10
      (create_access_token 1 "a@b" defaultConfig 0) tokR1 [] ⟨9⟩ (by decide)
      (by decide)).2⟩

/-- C8. Claims issued by the three issuance paths satisfy the data-model
invariant: `exp > iat` (given a positive TTL, as configured by default), and
`jti` is present if and only if the kind is `refresh`; for access and
ephemeral demo tokens `jti` is absent, for refresh tokens `jti` is the
freshly drawn identifier, distinct from the subject id (the subject id was
drawn earlier, so it is below the generator's freshness counter). -/
theorem C8_issued_claims_invariant (u : Uuid) (e : String) (cfg : Config)
    (now ttl : Int) (g : UuidGen)
    (hacc : 0 < cfg.jwt_access_ttl_secs)
    (href : 0 < cfg.jwt_refresh_ttl_secs)
    (httl : 0 < ttl)
    (hu : u < g.next) :
    ((create_access_token u e cfg now).claims.iat <
        (create_access_token u e cfg now).claims.exp ∧
      (create_access_token u e cfg now).claims.jti = none ∧
      ((create_access_token u e cfg now).claims.jti.isSome ↔
        (create_access_token u e cfg now).claims.token_type =
          TokenType.refresh)) ∧
    (((create_refresh_token u e cfg now g).1).claims.iat <
        ((create_refresh_token u e cfg now g).1).claims.exp ∧
      ((create_refresh_token u e cfg now g).1).claims.jti = some g.next ∧
      g.next ≠ u ∧
      (((create_refresh_token u e cfg now g).1).claims.jti.isSome ↔
        ((create_refresh_token u e cfg now g).1).claims.token_type =
          TokenType.refresh)) ∧
    ((create_demo_access_token u ttl cfg now).claims.iat <
        (create_demo_access_token u ttl cfg now).claims.exp ∧
      (create_demo_access_token u ttl cfg now).claims.jti = none ∧
      (create_demo_access_token u ttl cfg now).claims.is_demo = some true ∧
      ((create_demo_access_token u ttl cfg now).claims.jti.isSome ↔
        (create_demo_access_token u ttl cfg now).claims.token_type =
          TokenType.refresh)) := by
  refine ⟨⟨?_, rfl, by simp [create_access_token, encode]⟩,
    ⟨?_, rfl, Nat.ne_of_gt hu,
      by simp [create_refresh_token, encode, UuidGen.fresh]⟩,
    ⟨?_, rfl, rfl, by simp [create_demo_access_token, encode]⟩⟩
  · show now < now + cfg.jwt_access_ttl_secs
    omega
  · show now < now + cfg.jwt_refresh_ttl_secs
    omega
  · show now < now + ttl
    omega

/-- C8, witness: default configuration, subject 1 drawn before a generator
whose counter is at 3, demo TTL 7200. -/
theorem C8_witness :
    (0 : Int) < defaultConfig.jwt_access_ttl_secs ∧
    (0 : Int) < defaultConfig.jwt_refresh_ttl_secs ∧
    (0 : Int) < 7200 ∧
    (1 : Uuid) < (3 : Nat) ∧
    ((create_refresh_token 1 "u1@x" defaultConfig 0 ⟨3⟩).1).claims.jti =
      some 3 :=
  ⟨by decide, by decide, by decide, by decide,
    (C8_issued_claims_invariant 1 "u1@x" defaultConfig 0 7200 ⟨3⟩ (by decide)
      (by decide) (by decide) (by decide)).2.1.2.1⟩

/-- C1. When the presented refresh token verifies, is of kind `refresh`, and
its ledger record is revoked, the handler does not rotate: the resulting
state is exactly the family revocation for the record's owning subject, the
only ledger write is that family revocation (so no new record is stored),
the request fails with the Unauthenticated error, every previously
non-revoked record of that subject is revoked with revocation timestamp
`now` in the final state, and the table's size is unchanged. -/
theorem C1_reuse_revokes_family (db : Db) (g : UuidGen) (cfg : Config)
    (t : Token) (now : Int) (claims : Claims) (stored : RefreshRecord)
    (hv : verify_token t cfg now = .ok claims)
    (hk : claims.token_type = TokenType.refresh)
    (hl : lookup_by_hash db (hash_token t) = some stored)
    (hrev : stored.revoked = true) :
    refresh db g cfg t now =
      (revoke_all_user_tokens db stored.user_id now, g,
        [.revokeAllForSubject stored.user_id], .error .Unauthorized) ∧
    (∀ r ∈ db, r.user_id = stored.user_id → r.revoked = false →
      { r with revoked := true, revoked_at := some now } ∈
        (refresh db g cfg t now).1) ∧
    (refresh db g cfg t now).1.length = db.length := by
  have h1 : refresh db g cfg t now =
      (revoke_all_user_tokens db stored.user_id now, g,
        [.revokeAllForSubject stored.user_id], .error .Unauthorized) := by
    unfold refresh
    rw [hv, hl]
    simp [hk, hrev]
  refine ⟨h1, ?_, ?_⟩
  · intro r hr hru hrrev
    rw [h1]
    unfold revoke_all_user_tokens
    exact List.mem_map.mpr ⟨r, hr, by simp [hru, hrrev]⟩
  · rw [h1]
    unfold revoke_all_user_tokens
    exact List.length_map _ _

/-- C1, witness: subject 1 presents an already-revoked refresh token while
owning one other live record. -/
theorem C1_witness :
    verify_token tokR1 defaultConfig 100 = .ok tokR1.claims ∧
    tokR1.claims.token_type = TokenType.refresh ∧
    lookup_by_hash [recOf 5 1 tokR1 true, recOf 6 1 tokR2 false]
      (hash_token tokR1) = some (recOf 5 1 tokR1 true) ∧
    (recOf 5 1 tokR1 true).revoked = true ∧
    refresh [recOf 5 1 tokR1 true, recOf 6 1 tokR2 false] ⟨10⟩ defaultConfig
      tokR1 100 =
      (revoke_all_user_tokens [recOf 5 1 tokR1 true, recOf 6 1 tokR2 false]
        (recOf 5 1 tokR1 true).user_id 100, ⟨10⟩,
        [.revokeAllForSubject (recOf 5 1 tokR1 true).user_id],
        .error .Unauthorized) :=
  ⟨rfl, by decide, by decide, by decide,
    (C1_reuse_revokes_family [recOf 5 1 tokR1 true, recOf 6 1 tokR2 false]
      ⟨10⟩ defaultConfig tokR1 100 tokR1.claims (recOf 5 1 tokR1 true)
      rfl (by decide) (by decide) (by decide)).1⟩

/-- C2. When the presented refresh token verifies, is of kind `refresh`, its
ledger record is not revoked, and the record's owner matches the token's
`sub` claim, the handler rotates: the final state is the old record revoked
with revocation timestamp `now` followed by exactly one appended new
non-revoked record whose parent id is the old record's id and whose owner is
the token's subject; the write trace is the revoke of the old record
followed by the store of the new one (revoke strictly first); the result is
a fresh access+refresh pair for the same subject; and the updated old record
is present in the final state. -/
theorem C2_rotation_revoke_before_store (db : Db) (g : UuidGen) (cfg : Config)
    (t : Token) (now : Int) (claims : Claims) (stored : RefreshRecord)
    (hv : verify_token t cfg now = .ok claims)
    (hk : claims.token_type = TokenType.refresh)
    (hl : lookup_by_hash db (hash_token t) = some stored)
    (hrev : stored.revoked = false)
    (hsub : stored.user_id = claims.sub) :
    refresh db g cfg t now =
      (revoke_record db stored.id now ++
        [{ id := g.next + 1
           user_id := claims.sub
           token_hash :=
             hash_token (create_refresh_token claims.sub claims.email cfg now
               g).1
           expires_at := now + cfg.jwt_refresh_ttl_secs
           revoked := false
           revoked_at := none
           parent_token_id := some stored.id }],
        ⟨g.next + 2⟩, [.revoke stored.id, .store (g.next + 1)],
        .ok (create_token_pair claims.sub claims.email cfg now g).1) ∧
    (create_token_pair claims.sub claims.email cfg now
        g).1.access_token.claims.sub = claims.sub ∧
    (create_token_pair claims.sub claims.email cfg now
        g).1.refresh_token.claims.sub = claims.sub ∧
    { stored with revoked := true, revoked_at := some now } ∈
      (refresh db g cfg t now).1 ∧
    (refresh db g cfg t now).1.length = db.length + 1 := by
  have h1 : refresh db g cfg t now =
      (revoke_record db stored.id now ++
        [{ id := g.next + 1
           user_id := claims.sub
           token_hash :=
             hash_token (create_refresh_token claims.sub claims.email cfg now
               g).1
           expires_at := now + cfg.jwt_refresh_ttl_secs
           revoked := false
           revoked_at := none
           parent_token_id := some stored.id }],
        ⟨g.next + 2⟩, [.revoke stored.id, .store (g.next + 1)],
        .ok (create_token_pair claims.sub claims.email cfg now g).1) := by
    unfold refresh
    rw [hv, hl]
    simp only [hk, hrev, hsub]
    simp [issue_token_pair, store_refresh_token, create_token_pair,
      create_refresh_token, UuidGen.fresh]
  have hmem : stored ∈ db := by
    unfold lookup_by_hash at hl
    exact List.mem_of_find?_eq_some hl
  refine ⟨h1, rfl, rfl, ?_, ?_⟩
  · rw [h1]
    refine List.mem_append_left _ ?_
    unfold revoke_record
    exact List.mem_map.mpr ⟨stored, hmem, by simp⟩
  · rw [h1]
    simp [revoke_record]

/-- C2, witness: subject 1 rotates a live refresh token whose ledger record
it owns. -/
theorem C2_witness :
    verify_token tokR1 defaultConfig 100 = .ok tokR1.claims ∧
    tokR1.claims.token_type = TokenType.refresh ∧
    lookup_by_hash [recOf 5 1 tokR1 false] (hash_token tokR1) =
      some (recOf 5 1 tokR1 false) ∧
    (recOf 5 1 tokR1 false).revoked = false ∧
    (recOf 5 1 tokR1 false).user_id = tokR1.claims.sub ∧
    refresh [recOf 5 1 tokR1 false] ⟨10⟩ defaultConfig tokR1 100 =
      (revoke_record [recOf 5 1 tokR1 false] (recOf 5 1 tokR1 false).id 100 ++
        [{ id := 11
           user_id := tokR1.claims.sub
           token_hash :=
             hash_token (create_refresh_token tokR1.claims.sub
               tokR1.claims.email defaultConfig 100 ⟨10⟩).1
           expires_at := 100 + defaultConfig.jwt_refresh_ttl_secs
           revoked := false
           revoked_at := none
           parent_token_id := some (recOf 5 1 tokR1 false).id }],
        ⟨12⟩, [.revoke (recOf 5 1 tokR1 false).id, .store 11],
        .ok (create_token_pair tokR1.claims.sub tokR1.claims.email
          defaultConfig 100 ⟨10⟩).1) :=
  ⟨rfl, by decide, by decide, by decide, by decide,
    (C2_rotation_revoke_before_store [recOf 5 1 tokR1 false] ⟨10⟩
      defaultConfig tokR1 100 tokR1.claims (recOf 5 1 tokR1 false) rfl
      (by decide) (by decide) (by decide) (by decide)).1⟩

/-- C6. When the presented refresh token verifies, is of kind `refresh`, its
ledger record is not revoked, but the record's owner differs from the
token's `sub` claim, the handler fails closed: the result is the
Unauthenticated error and the state, generator and write trace are returned
untouched — no record is revoked or created. -/
theorem C6_subject_mismatch_fails_closed (db : Db) (g : UuidGen)
    (cfg : Config) (t : Token) (now : Int) (claims : Claims)
    (stored : RefreshRecord)
    (hv : verify_token t cfg now = .ok claims)
    (hk : claims.token_type = TokenType.refresh)
    (hl : lookup_by_hash db (hash_token t) = some stored)
    (hrev : stored.revoked = false)
    (hne : stored.user_id ≠ claims.sub) :
    refresh db g cfg t now = (db, g, [], .error .Unauthorized) := by
  unfold refresh
  rw [hv, hl]
  simp [hk, hrev, hne]

/-- C6, witness: subject 1's valid refresh token whose ledger record is
owned by subject 2. -/
theorem C6_witness :
    verify_token tokR1 defaultConfig 100 = .ok tokR1.claims ∧
    tokR1.claims.token_type = TokenType.refresh ∧
    lookup_by_hash [recOf 5 2 tokR1 false] (hash_token tokR1) =
      some (recOf 5 2 tokR1 false) ∧
    (recOf 5 2 tokR1 false).revoked = false ∧
    (recOf 5 2 tokR1 false).user_id ≠ tokR1.claims.sub ∧
    refresh [recOf 5 2 tokR1 false] ⟨10⟩ defaultConfig tokR1 100 =
      ([recOf 5 2 tokR1 false], ⟨10⟩, [], .error .Unauthorized) :=
  ⟨rfl, by decide, by decide, by decide, by decide,
    C6_subject_mismatch_fails_closed [recOf 5 2 tokR1 false] ⟨10⟩
      defaultConfig tokR1 100 tokR1.claims (recOf 5 2 tokR1 false) rfl
      (by decide) (by decide) (by decide) (by decide)⟩

/-- C10. The reuse check runs before the subject-match check: when the
ledger record of a verified refresh token is revoked AND its owner differs
from the token's `sub` claim, family revocation still triggers, and it
targets the record's owning subject — every previously non-revoked record of
that owner is revoked with timestamp `now`, while every record of any other
subject (in particular of the subject claimed in the token) is carried over
unchanged. -/
theorem C10_reuse_check_precedes_subject_check (db : Db) (g : UuidGen)
    (cfg : Config) (t : Token) (now : Int) (claims : Claims)
    (stored : RefreshRecord)
    (hv : verify_token t cfg now = .ok claims)
    (hk : claims.token_type = TokenType.refresh)
    (hl : lookup_by_hash db (hash_token t) = some stored)
    (hrev : stored.revoked = true)
    (_hne : stored.user_id ≠ claims.sub) :
    refresh db g cfg t now =
      (revoke_all_user_tokens db stored.user_id now, g,
        [.revokeAllForSubject stored.user_id], .error .Unauthorized) ∧
    (∀ r ∈ db, r.user_id = stored.user_id → r.revoked = false →
      { r with revoked := true, revoked_at := some now } ∈
        (refresh db g cfg t now).1) ∧
    (∀ r ∈ db, r.user_id ≠ stored.user_id → r ∈ (refresh db g cfg t now).1) := by
  have h1 : refresh db g cfg t now =
      (revoke_all_user_tokens db stored.user_id now, g,
        [.revokeAllForSubject stored.user_id], .error .Unauthorized) := by
    unfold refresh
    rw [hv, hl]
    simp [hk, hrev]
  refine ⟨h1, ?_, ?_⟩
  · intro r hr hru hrrev
    rw [h1]
    unfold revoke_all_user_tokens
    exact List.mem_map.mpr ⟨r, hr, by simp [hru, hrrev]⟩
  · intro r hr hru
    rw [h1]
    unfold revoke_all_user_tokens
    exact List.mem_map.mpr ⟨r, hr, by simp [hru]⟩

/-- C10, witness: subject 1's token hash resolves to a revoked record owned
by subject 2; subject 2's other live record is revoked, subject 1's record
survives untouched. -/
theorem C10_witness :
    verify_token tokR1 defaultConfig 100 = .ok tokR1.claims ∧
    tokR1.claims.token_type = TokenType.refresh ∧
    lookup_by_hash
      [recOf 5 2 tokR1 true, recOf 6 2 tokR2 false, recOf 7 1 tokR2 false]
      (hash_token tokR1) = some (recOf 5 2 tokR1 true) ∧
    (recOf 5 2 tokR1 true).revoked = true ∧
    (recOf 5 2 tokR1 true).user_id ≠ tokR1.claims.sub ∧
    refresh
      [recOf 5 2 tokR1 true, recOf 6 2 tokR2 false, recOf 7 1 tokR2 false]
      ⟨10⟩ defaultConfig tokR1 100 =
      (revoke_all_user_tokens
        [recOf 5 2 tokR1 true, recOf 6 2 tokR2 false, recOf 7 1 tokR2 false]
        (recOf 5 2 tokR1 true).user_id 100, ⟨10⟩,
        [.revokeAllForSubject (recOf 5 2 tokR1 true).user_id],
        .error .Unauthorized) :=
  ⟨rfl, by decide, by decide, by decide, by decide,
    (C10_reuse_check_precedes_subject_check
      [recOf 5 2 tokR1 true, recOf 6 2 tokR2 false, recOf 7 1 tokR2 false]
      ⟨10⟩ defaultConfig tokR1 100 tokR1.claims (recOf 5 2 tokR1 true) rfl
      (by decide) (by decide) (by decide) (by decide)).1⟩

/-! Helper lemmas about the rate limiter's per-key table. -/

/-- Lookup on a singleton table at its own key. -/
theorem rlLookup_single (k : String) (e : RateLimitEntry) :
    rlLookup [(k, e)] k = some e := by
  simp [rlLookup]

/-- Lookup on a singleton table at a different key. -/
theorem rlLookup_single_ne (k k' : String) (e : RateLimitEntry)
    (h : k' ≠ k) : rlLookup [(k, e)] k' = none := by
  simp [rlLookup, Ne.symm h]

/-- Inserting a new key behind a singleton table with a different key
appends the binding. -/
theorem rlInsert_single_ne (k k' : String) (e e' : RateLimitEntry)
    (h : k' ≠ k) : rlInsert [(k, e)] k' e' = [(k, e), (k', e')] := by
  unfold rlInsert
  rw [if_neg (Ne.symm h)]
  rfl

/-- A default-policy check on a key with no entry yet inserts a fresh
window starting now and admits with 4 requests remaining. -/
theorem check_step_fresh (m : RLMap) (k : String) (t : Nat)
    (h : rlLookup m k = none) :
    check m k t = (rlInsert m k ⟨1, t⟩, .ok 4) := by
  unfold check check_with_limits MAX_REQUESTS WINDOW_SECS
  rw [h]
  dsimp only [Option.getD]
  rw [if_neg (show
    ¬(t - (⟨0, t⟩ : RateLimitEntry).window_start > 60) from by
      dsimp only; omega)]
  rw [if_neg (show ¬((⟨0, t⟩ : RateLimitEntry).count ≥ 5) from by
    dsimp only; omega)]
  rfl

/-- A default-policy check on a singleton table whose window is still live
(`t - t0 ≤ 60`) and whose count is below the budget increments the count and
admits. -/
theorem check_step_ok (k : String) (c t0 t : Nat) (hc : c < 5)
    (hw : t - t0 ≤ 60) :
    check [(k, ⟨c, t0⟩)] k t = ([(k, ⟨c + 1, t0⟩)], .ok (5 - (c + 1))) := by
  unfold check check_with_limits MAX_REQUESTS WINDOW_SECS
  rw [rlLookup_single]
  dsimp only [Option.getD]
  rw [if_neg (show
    ¬(t - (⟨c, t0⟩ : RateLimitEntry).window_start > 60) from by
      dsimp only; omega)]
  rw [if_neg (show ¬((⟨c, t0⟩ : RateLimitEntry).count ≥ 5) from by
    dsimp only; omega)]
  unfold rlInsert
  rw [if_pos rfl]

/-- A default-policy check on a singleton table whose window is still live
but whose count has reached the budget rejects with the window's remaining
time. -/
theorem check_step_limited (k : String) (t0 t : Nat) (hw : t - t0 ≤ 60) :
    check [(k, ⟨5, t0⟩)] k t = ([(k, ⟨5, t0⟩)], .limited (60 - (t - t0))) := by
  unfold check check_with_limits MAX_REQUESTS WINDOW_SECS
  rw [rlLookup_single]
  dsimp only [Option.getD]
  rw [if_neg (show
    ¬(t - (⟨5, t0⟩ : RateLimitEntry).window_start > 60) from by
      dsimp only; omega)]
  rw [if_pos (show (⟨5, t0⟩ : RateLimitEntry).count ≥ 5 from by
    dsimp only; omega)]
  unfold rlInsert
  rw [if_pos rfl]

/-- C4, counterexample. The claim says the sweep removes exactly the entries
whose own window times the safety multiplier has elapsed, and that an entry
under the 3-per-3600s demo policy whose window has not yet elapsed is never
removed. On the code, `cleanup` uses the constant default window
(`WINDOW_SECS * 2` = 120s) for every entry: a demo-policy entry created at
instant 0 is removed by a sweep at instant 200, although 200 is far below
its own window times the multiplier (7200). -/
theorem C4_counterexample_demo_entry_swept_early :
    rlLookup (cleanup (rate_limit_demo_check [] "1.2.3.4" 0).1 200)
      (demoKey "1.2.3.4") = none ∧
    (200 : Nat) < 3600 * 2 := by
  exact ⟨rfl, by decide⟩

/-- C4, amended. The periodic sweep removes exactly the entries whose window
start lies at least `WINDOW_SECS * 2` = 120 seconds in the past — twice the
constant default window, regardless of the policy window the key was checked
under; consequently an entry used under the stricter 3-per-3600s demo policy
can be removed while its own window (times the multiplier) has not yet
elapsed. -/
theorem C4_cleanup_uses_fixed_default_window (m : RLMap) (now : Nat)
    (kv : String × RateLimitEntry) :
    kv ∈ cleanup m now ↔
      kv ∈ m ∧ now - kv.2.window_start < WINDOW_SECS * 2 := by
  unfold cleanup
  simp [List.mem_filter]

/-- C5, counterexample. The claim says every sixth check within the same
window fails with a positive retry-after. On the code, the window only rolls
over when strictly more than `window` has elapsed, so a sixth check exactly
60 seconds after the window start is still in the same window (the entry
keeps `count = 5`, `window_start = 0`) yet is rejected with retry-after 0,
which is not positive. -/
theorem C5_counterexample_sixth_check_zero_retry :
    (runChecks [] "k" [0, 0, 0, 0, 0, 60]).2 =
      [.ok 4, .ok 3, .ok 2, .ok 1, .ok 0, .limited 0] ∧
    (runChecks [] "k" [0, 0, 0, 0, 0, 60]).1 =
      [("k", { count := 5, window_start := 0 })] := by
  exact ⟨by decide, by decide⟩

/-- C5, amended. With `max = 5`, `window = 60s`, starting from an empty
table: five sequential checks for a key, all within the window opened by the
first, succeed with decreasing remaining budget; a sixth check in the same
window fails with retry-after `60 - elapsed` seconds, which is at most 60
and is positive whenever the sixth check happens strictly before the
window's end (at exactly the window's end it is 0); and a check for any
other key afterwards still succeeds. -/
theorem C5_rate_limit_five_then_reject (k k' : String)
    (t0 t1 t2 t3 t4 t5 t6 : Nat)
    (h01 : t0 ≤ t1) (h12 : t1 ≤ t2) (h23 : t2 ≤ t3) (h34 : t3 ≤ t4)
    (h45 : t4 ≤ t5) (hw : t5 ≤ t0 + 60) (hk : k' ≠ k) :
    (runChecks [] k [t0, t1, t2, t3, t4, t5]).2 =
      [.ok 4, .ok 3, .ok 2, .ok 1, .ok 0, .limited (60 - (t5 - t0))] ∧
    60 - (t5 - t0) ≤ 60 ∧
    (t5 < t0 + 60 → 0 < 60 - (t5 - t0)) ∧
    (check (runChecks [] k [t0, t1, t2, t3, t4, t5]).1 k' t6).2 = .ok 4 := by
  have s1 : check [] k t0 = ([(k, ⟨1, t0⟩)], .ok 4) :=
    check_step_fresh [] k t0 rfl
  have s2 := check_step_ok k 1 t0 t1 (by omega) (by omega)
  have s3 := check_step_ok k 2 t0 t2 (by omega) (by omega)
  have s4 := check_step_ok k 3 t0 t3 (by omega) (by omega)
  have s5 := check_step_ok k 4 t0 t4 (by omega) (by omega)
  have s6 := check_step_limited k t0 t5 (by omega)
  have s7 : check [(k, ⟨5, t0⟩)] k' t6 =
      ([(k, ⟨5, t0⟩), (k', ⟨1, t6⟩)], .ok 4) := by
    rw [check_step_fresh [(k, ⟨5, t0⟩)] k' t6 (rlLookup_single_ne k k' _ hk),
      rlInsert_single_ne k k' _ _ hk]
  refine ⟨?_, by omega, by omega, ?_⟩ <;>
    simp only [runChecks, s1, s2, s3, s4, s5, s6, s7]

/-- C5, witness: key "a" checked at instants 0,1,2,3,4,5 and key "b" at
instant 6. -/
theorem C5_witness :
    (0 : Nat) ≤ 1 ∧ (1 : Nat) ≤ 2 ∧ (2 : Nat) ≤ 3 ∧ (3 : Nat) ≤ 4 ∧
    (4 : Nat) ≤ 5 ∧ (5 : Nat) ≤ 0 + 60 ∧ "b" ≠ "a" ∧
    (runChecks [] "a" [0, 1, 2, 3, 4, 5]).2 =
      [.ok 4, .ok 3, .ok 2, .ok 1, .ok 0, .limited (60 - (5 - 0))] :=
  ⟨by decide, by decide, by decide, by decide, by decide, by decide,
    by decide,
    (C5_rate_limit_five_then_reject "a" "b" 0 1 2 3 4 5 6 (by decide)
      (by decide) (by decide) (by decide) (by decide) (by decide)
      (by decide)).1⟩

end HabitArc
